import Mathlib

/-!
Shallow embedding of the Sun_collector_rev4 pool heat-balance and savings
computations, over exact rational arithmetic.  The four Streamlit pages of the
repository share a savings pipeline (collector gain, direct pool gain, net
heating requirement, net saving, fuel/cost equivalents) that is embedded here
element-wise: the pages apply the same scalar formulas to every row of the
climate table, so one evaluation per scalar input captures the whole array
computation.  The core physical model, heat_loss_utils.compute_heat_losses, is
imported by the pages but its file is not part of this repository snapshot; it
is modelled from the specification where claims need it.
-/

namespace SunCollector

/-- Fixed collector efficiency; every page sets collector_efficiency = 0.7. -/
def collector_efficiency : ℚ := 7/10

namespace MainPage

/-- Source ☀️_Main_page.py line 150:
helideck_gain = ghi * helideck_area * collector_efficiency. -/
def helideck_gain (ghi helideck_area : ℚ) : ℚ :=
  ghi * helideck_area * collector_efficiency

/-- Source ☀️_Main_page.py line 151: pool_solar_gain = ghi * pool_area * 0.7. -/
def pool_solar_gain (ghi pool_area : ℚ) : ℚ :=
  ghi * pool_area * (7/10)

/-- Elementwise meaning of np.clip(x, 0, None). -/
def clip0 (x : ℚ) : ℚ :=
  max x 0

/-- Source ☀️_Main_page.py line 152:
net_pool_heating = np.clip(total_loss - pool_solar_gain, 0, None). -/
def net_pool_heating (total_loss pool_solar_gain : ℚ) : ℚ :=
  clip0 (total_loss - pool_solar_gain)

/-- Source ☀️_Main_page.py line 153:
net_saving = np.minimum(helideck_gain, net_pool_heating), before the display
floor of the next line. -/
def net_saving (helideck_gain net_pool_heating : ℚ) : ℚ :=
  min helideck_gain net_pool_heating

/-- Source ☀️_Main_page.py line 154: net_saving = np.maximum(net_saving, 0.001);
this rebound value is the one the page passes to plot_map. -/
def net_saving_floored (helideck_gain net_pool_heating : ℚ) : ℚ :=
  max (net_saving helideck_gain net_pool_heating) (1/1000)

end MainPage

namespace CostPage

/-- One month of the cost-saving evaluation (2_📍_Cost_saving_evaluation.py
lines 185-206).  Fields named after the source variables hold the per-day
quantities; the fields suffixed _month hold the exact quantities inside the
round(·, 1) calls of the results table (round is display formatting only). -/
structure MonthResult where
  total_loss : ℚ
  helideck_gain : ℚ
  pool_solar_gain : ℚ
  net_pool_heating : ℚ
  net_saving : ℚ
  electrical_saving : ℚ
  diesel_kg : ℚ
  el_energy_requierd : ℚ
  diesel_liters : ℚ
  heat_loss_month : ℚ
  pool_solar_month : ℚ
  net_heat_month : ℚ
  electric_req_month : ℚ
  thermal_saving_month : ℚ
  electric_saving_month : ℚ
  usd_saved : ℚ

/-- The per-month computation of 2_📍_Cost_saving_evaluation.py lines 185-206,
as a function of the climate values resolved for the month.  total_loss is
Q_day + Q_night from compute_heat_losses; days is days_in_month[month]. -/
def monthResult (ghi helideck_area pool_area total_loss days cop usd_per_liter : ℚ) :
    MonthResult :=
  let helideck_gain := ghi * helideck_area * collector_efficiency
  let pool_solar_gain := ghi * pool_area * (7/10)
  let net_pool_heating := max (total_loss - pool_solar_gain) 0
  let net_saving := min helideck_gain net_pool_heating
  let electrical_saving := net_saving * days / cop
  let diesel_kg := electrical_saving * (2/10)
  let el_energy_requierd := net_pool_heating / cop
  let diesel_liters := diesel_kg / (84/100)
  { total_loss := total_loss
    helideck_gain := helideck_gain
    pool_solar_gain := pool_solar_gain
    net_pool_heating := net_pool_heating
    net_saving := net_saving
    electrical_saving := electrical_saving
    diesel_kg := diesel_kg
    el_energy_requierd := el_energy_requierd
    diesel_liters := diesel_liters
    heat_loss_month := total_loss * days
    pool_solar_month := pool_solar_gain * days
    net_heat_month := net_pool_heating * days
    electric_req_month := el_energy_requierd * days
    thermal_saving_month := net_saving * days
    electric_saving_month := electrical_saving * days
    usd_saved := diesel_liters * usd_per_liter }

end CostPage

/-- Polar-band row predicate shared by ☀️_Main_page.py, 1_📊_Climate_Data_Viewer.py
and 3_♨️_Heat_loss_components.py:
mask = (df['lat'] < -65) | ((df['lat'] > 60) & (df['lon'].between(-60, -20)));
pandas Series.between is inclusive at both ends. -/
def polar_mask (lat lon : ℚ) : Bool :=
  decide (lat < -65) || (decide (lat > 60) && decide (-60 ≤ lon) && decide (lon ≤ -20))

/-- One application of df.loc[mask, ghi_cols] *= 0.5 to one row's ghi value,
as performed once by ☀️_Main_page.py and once by 1_📊_Climate_Data_Viewer.py. -/
def adjust_ghi (lat lon ghi : ℚ) : ℚ :=
  if polar_mask lat lon then ghi * (1/2) else ghi

/-- 3_♨️_Heat_loss_components.py lines 103-110 contain the masking block twice
(the second copy under the comment "Clean polar outliers"), so its rows pass
through the halving twice. -/
def adjust_ghi_page3 (lat lon ghi : ℚ) : ℚ :=
  adjust_ghi lat lon (adjust_ghi lat lon ghi)

/-- 2_📍_Cost_saving_evaluation.py reads ghi = row[f"ghi_{month}"] from the
freshly loaded table and applies no polar masking at all. -/
def cost_page_ghi (ghi : ℚ) : ℚ :=
  ghi

/-- All three computing pages: rh_day = rh, the dataset humidity unchanged. -/
def rh_day (rh : ℚ) : ℚ :=
  rh

/-- All three computing pages: rh_night = 1.1 * rh. -/
def rh_night (rh : ℚ) : ℚ :=
  (11/10) * rh

/-- A latitude-longitude pair, the value stored per month key. -/
abbrev Coord := ℚ × ℚ

/-- Month key as derived in the source: m[:3].lower().  Python slicing and
lowercasing act per character, so the key is the first three characters of the
month name, each lowercased. -/
def shortKey (m : String) : String :=
  String.mk ((m.data.take 3).map Char.toLower)

/-- st.session_state.coords_by_month: a dictionary from three-letter month key
to clicked coordinates, absent keys modelled as none. -/
abbrev CoordsByMonth : Type :=
  String → Option Coord

/-- 2_📍_Cost_saving_evaluation.py lines 139-144: on a map click with months
selected, the loop for m in selected_months assigns
coords_by_month[m[:3].lower()] = latlng, one key at a time in order. -/
def registerClick (coords : CoordsByMonth) (selected : List String) (latlng : Coord) :
    CoordsByMonth :=
  selected.foldl (fun acc m => Function.update acc (shortKey m) (some latlng)) coords

namespace HeatLossModel

/-- Modelled from the spec: the error taxonomy of heat_loss_utils, whose file is
not part of this repository snapshot; the spec names a single core failure,
InvalidParameter. -/
inductive HeatLossError where
  | invalidParameter : HeatLossError
deriving DecidableEq

/-- The output record of compute_heat_losses as the spec describes it: the six
per-period loss-rate components plus the time-integrated period totals. -/
structure LossBreakdown where
  rad_day : ℚ
  rad_night : ℚ
  evap_day : ℚ
  evap_night : ℚ
  conv_day : ℚ
  conv_night : ℚ
  Q_day : ℚ
  Q_night : ℚ

/-- Modelled from the spec: a standard saturation-vapor-pressure curve
(Antoine/Magnus-type); heat_loss_utils is missing from the snapshot, so a
rational polynomial stand-in increasing on the physical temperature range is
used in place of the exponential Magnus form. -/
def p_sat (T : ℚ) : ℚ :=
  (611 + 44 * T + 3 * T ^ 2) / 1000

/-- Modelled from the spec: radiative loss, Stefan-Boltzmann form on absolute
temperatures, scaled by water emissivity 0.95 and surface area. -/
def rad_loss (area T_pool T_air : ℚ) : ℚ :=
  (95/100) * (567/10000000000) * area *
    ((T_pool + 27315/100) ^ 4 - (T_air + 27315/100) ^ 4)

/-- Modelled from the spec: evaporative loss, a linear wind-dependent
mass-transfer coefficient times the vapor-pressure deficit between saturation
at pool temperature and the ambient vapor pressure implied by relative
humidity (given in percent). -/
def evap_loss (area wind T_pool T_air rh : ℚ) : ℚ :=
  area * (1/20 + (7/100) * wind) * (p_sat T_pool - (rh / 100) * p_sat T_air)

/-- Modelled from the spec: convective loss, a wind-enhanced heat-transfer
coefficient times the pool-to-air temperature difference and the area. -/
def conv_loss (area wind T_pool T_air : ℚ) : ℚ :=
  area * (31/10 + (41/10) * wind) * (T_pool - T_air) / 1000

/-- Fraction of night evaporative loss remaining under the cover: the spec has
the cover suppress evaporation to a small positive residual, not to zero. -/
def cover_evap_residual : ℚ := 1/10

/-- Fraction of night radiative loss remaining under the cover: attenuated but
not fully blocked. -/
def cover_rad_factor : ℚ := 1/2

/-- Fraction of night convective loss remaining under the cover. -/
def cover_conv_factor : ℚ := 1/2

/-- Modelled from the spec: the loss computation of
heat_loss_utils.compute_heat_losses on in-domain inputs.  Day components use
day ambient values; night components use night ambient values and, when
cover_used holds, are scaled by the cover factors; period totals integrate the
summed rates over day_hours = 24 - night_hours and night_hours. -/
def computeHeatLossesCore (target_temp area depth T_day T_night wind_day wind_night
    rh_day rh_night night_hours : ℚ) (cover_used : Bool) : LossBreakdown :=
  let _ := depth
  let day_hours := 24 - night_hours
  let rad_day := rad_loss area target_temp T_day
  let evap_day := evap_loss area wind_day target_temp T_day rh_day
  let conv_day := conv_loss area wind_day target_temp T_day
  let rad_night0 := rad_loss area target_temp T_night
  let evap_night0 := evap_loss area wind_night target_temp T_night rh_night
  let conv_night0 := conv_loss area wind_night target_temp T_night
  let rad_night := if cover_used then cover_rad_factor * rad_night0 else rad_night0
  let evap_night := if cover_used then cover_evap_residual * evap_night0 else evap_night0
  let conv_night := if cover_used then cover_conv_factor * conv_night0 else conv_night0
  { rad_day := rad_day
    rad_night := rad_night
    evap_day := evap_day
    evap_night := evap_night
    conv_day := conv_day
    conv_night := conv_night
    Q_day := (rad_day + evap_day + conv_day) * day_hours
    Q_night := (rad_night + evap_night + conv_night) * night_hours }

/-- The invalid-parameter condition the spec states for compute_heat_losses:
area or depth nonpositive, a relative humidity outside its valid percent
range, or day/night hours failing to partition 24 hours (night_hours outside
[0, 24], day_hours being 24 - night_hours). -/
def badParams (area depth rh_day rh_night night_hours : ℚ) : Prop :=
  area ≤ 0 ∨ depth ≤ 0 ∨ rh_day < 0 ∨ 100 < rh_day ∨ rh_night < 0 ∨
    100 < rh_night ∨ night_hours < 0 ∨ 24 < night_hours

instance (area depth rh_day rh_night night_hours : ℚ) :
    Decidable (badParams area depth rh_day rh_night night_hours) := by
  unfold badParams
  infer_instance

/-- Modelled from the spec: heat_loss_utils.compute_heat_losses, absent from
the snapshot.  It signals InvalidParameter immediately on out-of-domain input
and otherwise is total and side-effect-free, returning the loss breakdown. -/
def compute_heat_losses (target_temp area depth T_day T_night wind_day wind_night
    rh_day rh_night night_hours : ℚ) (cover_used : Bool) :
    Except HeatLossError LossBreakdown :=
  if badParams area depth rh_day rh_night night_hours then
    .error .invalidParameter
  else
    .ok (computeHeatLossesCore target_temp area depth T_day T_night wind_day
      wind_night rh_day rh_night night_hours cover_used)

end HeatLossModel

/-- C1: at both call sites — np.clip(total_loss - pool_solar_gain, 0, None) on
the main page and max(total_loss - pool_solar_gain, 0) on the cost page — the
net heating requirement equals max(total loss - direct pool solar gain, 0),
hence is nonnegative even when the direct gain exceeds the loss. -/
theorem net_requirement_eq_max_and_nonneg
    (total_loss pool_solar_gain ghi helideck_area pool_area days cop usd : ℚ) :
    MainPage.net_pool_heating total_loss pool_solar_gain =
        max (total_loss - pool_solar_gain) 0 ∧
    0 ≤ MainPage.net_pool_heating total_loss pool_solar_gain ∧
    (CostPage.monthResult ghi helideck_area pool_area total_loss days cop
        usd).net_pool_heating = max (total_loss - ghi * pool_area * (7/10)) 0 ∧
    0 ≤ (CostPage.monthResult ghi helideck_area pool_area total_loss days cop
        usd).net_pool_heating :=
  ⟨rfl, le_max_right _ _, rfl, le_max_right _ _⟩

/-- C2 counterexample: with ghi = 0, helideck area 50, zero heat loss and pool
area 50, the main page's plotted net saving is the display floor 0.001, which
is strictly greater than the collector gain 0 — so the net saving the main
page uses does not always equal min(collector gain, net requirement) and can
exceed both bounds. -/
theorem main_net_saving_floored_exceeds_gain :
    MainPage.net_saving_floored (MainPage.helideck_gain 0 50)
        (MainPage.net_pool_heating 0 (MainPage.pool_solar_gain 0 50)) = 1/1000 ∧
    ¬ MainPage.net_saving_floored (MainPage.helideck_gain 0 50)
        (MainPage.net_pool_heating 0 (MainPage.pool_solar_gain 0 50)) ≤
      MainPage.helideck_gain 0 50 := by
  norm_num [MainPage.net_saving_floored, MainPage.net_saving, MainPage.helideck_gain,
    MainPage.net_pool_heating, MainPage.pool_solar_gain, MainPage.clip0,
    collector_efficiency]

/-- C2 amended: the pre-floor net saving equals min(collector gain, net
requirement) and is bounded by both, at every call site; the cost page uses
exactly this min, while the main page additionally floors the plotted value at
0.001, giving max(min(gain, requirement), 0.001). -/
theorem net_saving_min_semantics (g r ghi ha pa tl days cop usd : ℚ) :
    MainPage.net_saving g r = min g r ∧
    MainPage.net_saving g r ≤ g ∧
    MainPage.net_saving g r ≤ r ∧
    MainPage.net_saving_floored g r = max (min g r) (1/1000) ∧
    (CostPage.monthResult ghi ha pa tl days cop usd).net_saving =
        min (CostPage.monthResult ghi ha pa tl days cop usd).helideck_gain
          (CostPage.monthResult ghi ha pa tl days cop usd).net_pool_heating ∧
    (CostPage.monthResult ghi ha pa tl days cop usd).net_saving ≤
        (CostPage.monthResult ghi ha pa tl days cop usd).helideck_gain ∧
    (CostPage.monthResult ghi ha pa tl days cop usd).net_saving ≤
        (CostPage.monthResult ghi ha pa tl days cop usd).net_pool_heating :=
  ⟨rfl, min_le_left _ _, min_le_right _ _, rfl, rfl, min_le_left _ _, min_le_right _ _⟩

/-- C5: every accounting figure of the cost page is derived from the unfloored
min(collector gain, net requirement): the monthly thermal, electric, diesel
and cost figures all unfold to formulas in that min, and at a degenerate input
where the floor would bite (everything zero) the accounted thermal saving is 0
and differs from what the main page's floored display value would yield. -/
theorem accounting_totals_unfloored (ghi ha pa tl days cop usd : ℚ) :
    (CostPage.monthResult ghi ha pa tl days cop usd).net_saving =
        min (ghi * ha * collector_efficiency) (max (tl - ghi * pa * (7/10)) 0) ∧
    (CostPage.monthResult ghi ha pa tl days cop usd).thermal_saving_month =
        min (ghi * ha * collector_efficiency) (max (tl - ghi * pa * (7/10)) 0) * days ∧
    (CostPage.monthResult ghi ha pa tl days cop usd).electric_saving_month =
        min (ghi * ha * collector_efficiency) (max (tl - ghi * pa * (7/10)) 0) *
          days / cop * days ∧
    (CostPage.monthResult ghi ha pa tl days cop usd).diesel_liters =
        min (ghi * ha * collector_efficiency) (max (tl - ghi * pa * (7/10)) 0) *
          days / cop * (2/10) / (84/100) ∧
    (CostPage.monthResult ghi ha pa tl days cop usd).usd_saved =
        min (ghi * ha * collector_efficiency) (max (tl - ghi * pa * (7/10)) 0) *
          days / cop * (2/10) / (84/100) * usd ∧
    (CostPage.monthResult 0 50 50 0 31 3 1).thermal_saving_month = 0 ∧
    (CostPage.monthResult 0 50 50 0 31 3 1).thermal_saving_month ≠
        MainPage.net_saving_floored 0 0 * 31 := by
  refine ⟨rfl, rfl, rfl, rfl, rfl, ?_, ?_⟩ <;>
    norm_num [CostPage.monthResult, MainPage.net_saving_floored, MainPage.net_saving,
      collector_efficiency]

/-- C6: the collector gain is irradiance times collector area times the fixed
collector efficiency 0.7, and the direct pool solar gain is irradiance times
pool area times the fixed fraction 0.7, on both computing pages. -/
theorem solar_gain_formulas (ghi helideck_area pool_area tl days cop usd : ℚ) :
    collector_efficiency = 7/10 ∧
    MainPage.helideck_gain ghi helideck_area = ghi * helideck_area * collector_efficiency ∧
    MainPage.pool_solar_gain ghi pool_area = ghi * pool_area * (7/10) ∧
    (CostPage.monthResult ghi helideck_area pool_area tl days cop usd).helideck_gain =
        ghi * helideck_area * collector_efficiency ∧
    (CostPage.monthResult ghi helideck_area pool_area tl days cop usd).pool_solar_gain =
        ghi * pool_area * (7/10) :=
  ⟨rfl, rfl, rfl, rfl, rfl⟩

/-- C7: per month, the electrical saving is the net saving scaled by the days
of the month and divided by the COP, the diesel mass saved is the electrical
saving times 0.2 kg per kWh, the diesel volume is the mass divided by the
density 0.84, and the cost saved is the volume times the unit fuel price. -/
theorem fuel_cost_chain (ghi ha pa tl days cop usd : ℚ) :
    (CostPage.monthResult ghi ha pa tl days cop usd).electrical_saving =
        (CostPage.monthResult ghi ha pa tl days cop usd).net_saving * days / cop ∧
    (CostPage.monthResult ghi ha pa tl days cop usd).diesel_kg =
        (CostPage.monthResult ghi ha pa tl days cop usd).electrical_saving * (2/10) ∧
    (CostPage.monthResult ghi ha pa tl days cop usd).diesel_liters =
        (CostPage.monthResult ghi ha pa tl days cop usd).diesel_kg / (84/100) ∧
    (CostPage.monthResult ghi ha pa tl days cop usd).usd_saved =
        (CostPage.monthResult ghi ha pa tl days cop usd).diesel_liters * usd :=
  ⟨rfl, rfl, rfl, rfl⟩

/-- C8 counterexample: at the polar row lat = -70, lon = 0 with ghi = 4 the
heat-loss-components page leaves the value at 1 = 4 × 0.25, because its
masking block runs twice, not the claimed 2 = 4 × 0.5; and the cost page
consumes the same row's ghi completely unreduced. -/
theorem page3_polar_ghi_quartered :
    polar_mask (-70) 0 = true ∧
    adjust_ghi_page3 (-70) 0 4 = 1 ∧
    adjust_ghi_page3 (-70) 0 4 ≠ 4 * (1/2) ∧
    cost_page_ghi 4 = 4 := by
  refine ⟨?_, ?_, ?_, rfl⟩ <;>
    norm_num [adjust_ghi_page3, adjust_ghi, polar_mask, cost_page_ghi]

/-- C8 amended: the Main page and the Climate Data Viewer halve polar-band GHI
exactly once; the heat-loss-components page applies the halving block twice,
leaving polar rows at one quarter of the raw value; the cost-saving page
applies no reduction at all; non-polar rows are unchanged everywhere. -/
theorem ghi_adjustment_characterization (lat lon ghi : ℚ) :
    adjust_ghi lat lon ghi = (if polar_mask lat lon then ghi * (1/2) else ghi) ∧
    adjust_ghi_page3 lat lon ghi = (if polar_mask lat lon then ghi * (1/4) else ghi) ∧
    cost_page_ghi ghi = ghi := by
  refine ⟨rfl, ?_, rfl⟩
  unfold adjust_ghi_page3 adjust_ghi
  by_cases h : polar_mask lat lon
  · rw [if_pos h, if_pos h, if_pos h]; ring
  · rw [if_neg h, if_neg h, if_neg h]

/-- C9 counterexample: the dataset humidity 95 is inside the valid range
0..100, yet the night argument the pages pass, rh_night = 1.1 × 95 = 104.5,
exceeds 100 — so the calls do not always stay inside the valid humidity
range. -/
theorem rh_night_exceeds_range :
    0 ≤ (95 : ℚ) ∧ (95 : ℚ) ≤ 100 ∧ rh_night 95 = 209/2 ∧ ¬ rh_night 95 ≤ 100 := by
  norm_num [rh_night]

/-- C9 amended: the day humidity argument is the dataset value itself, so it
is in range exactly when the dataset value is; the night argument 1.1 × rh is
nonnegative exactly when rh is, but stays at or below 100 exactly when
rh ≤ 1000/11 ≈ 90.9 — dataset humidities above that bound put rh_night out of
range. -/
theorem rh_night_range_characterization (rh : ℚ) :
    rh_day rh = rh ∧ (0 ≤ rh_night rh ↔ 0 ≤ rh) ∧
      (rh_night rh ≤ 100 ↔ rh ≤ 1000/11) := by
  unfold rh_day rh_night
  refine ⟨rfl, ?_, ?_⟩ <;> constructor <;> intro h <;> linarith

/-- Keys the click loop does not write keep their previous value. -/
theorem registerClick_not_mem (selected : List String) (coords : CoordsByMonth)
    (latlng : Coord) (k : String) :
    k ∉ selected.map shortKey → registerClick coords selected latlng k = coords k := by
  induction selected generalizing coords with
  | nil => intro _; rfl
  | cons s ss ih =>
    intro hk
    simp only [List.map_cons, List.mem_cons, not_or] at hk
    simp only [registerClick, List.foldl_cons] at *
    exact (ih _ hk.2).trans (Function.update_noteq hk.1 _ _)

/-- Every key the click loop writes ends at the clicked coordinates. -/
theorem registerClick_mem_key (selected : List String) (coords : CoordsByMonth)
    (latlng : Coord) (k : String) :
    k ∈ selected.map shortKey → registerClick coords selected latlng k = some latlng := by
  induction selected generalizing coords with
  | nil => intro h; simp at h
  | cons s ss ih =>
    intro hk
    simp only [registerClick, List.foldl_cons] at *
    by_cases hss : k ∈ ss.map shortKey
    · exact ih _ hss
    · have hks : k = shortKey s := by
        rw [List.map_cons] at hk
        rcases List.mem_cons.mp hk with h | h
        · exact h
        · exact absurd h hss
      have hrest := registerClick_not_mem ss
        (Function.update coords (shortKey s) (some latlng)) latlng k hss
      simp only [registerClick] at hrest
      rw [hrest, hks, Function.update_same]

/-- C10: registering a map click with months selected sets exactly the
selected months' keys of coords_by_month to the clicked pair, and every key
belonging only to non-selected months keeps its previous value. -/
theorem coords_by_month_click_update (coords : CoordsByMonth) (selected : List String)
    (latlng : Coord) (m : String) :
    (m ∈ selected → registerClick coords selected latlng (shortKey m) = some latlng) ∧
    (shortKey m ∉ selected.map shortKey →
      registerClick coords selected latlng (shortKey m) = coords (shortKey m)) :=
  ⟨fun hm => registerClick_mem_key selected coords latlng (shortKey m)
      (List.mem_map_of_mem shortKey hm),
   fun hm => registerClick_not_mem selected coords latlng (shortKey m) hm⟩

/-- C10 witness: clicking (20, 0) with January and February selected sets the
key jan to the click and leaves the key mar of unselected March untouched. -/
theorem coords_by_month_click_update_witness :
    ("January" ∈ ["January", "February"] ∧
      registerClick (fun _ => none) ["January", "February"] ((20 : ℚ), (0 : ℚ))
        (shortKey "January") = some ((20 : ℚ), (0 : ℚ))) ∧
    (shortKey "March" ∉ (["January", "February"].map shortKey) ∧
      registerClick (fun _ => none) ["January", "February"] ((20 : ℚ), (0 : ℚ))
        (shortKey "March") = none) :=
  ⟨⟨by decide,
    (coords_by_month_click_update (fun _ => none) ["January", "February"]
      ((20 : ℚ), (0 : ℚ)) "January").1 (by decide)⟩,
   ⟨by decide,
    (coords_by_month_click_update (fun _ => none) ["January", "February"]
      ((20 : ℚ), (0 : ℚ)) "March").2 (by decide)⟩⟩

/-- C3: compute_heat_losses returns InvalidParameter exactly when area or
depth is nonpositive, a humidity argument leaves the percent range, or the
night hours leave [0, 24] so day and night fail to partition 24 hours; on
every other input it succeeds with the pure loss breakdown, the only other
outcome. -/
theorem compute_heat_losses_error_characterization
    (target_temp area depth T_day T_night wind_day wind_night rh_d rh_n
      night_hours : ℚ) (cover_used : Bool) :
    (HeatLossModel.compute_heat_losses target_temp area depth T_day T_night
        wind_day wind_night rh_d rh_n night_hours cover_used =
        Except.error HeatLossModel.HeatLossError.invalidParameter ↔
      HeatLossModel.badParams area depth rh_d rh_n night_hours) ∧
    (¬ HeatLossModel.badParams area depth rh_d rh_n night_hours →
      HeatLossModel.compute_heat_losses target_temp area depth T_day T_night
          wind_day wind_night rh_d rh_n night_hours cover_used =
        Except.ok (HeatLossModel.computeHeatLossesCore target_temp area depth
          T_day T_night wind_day wind_night rh_d rh_n night_hours cover_used)) := by
  unfold HeatLossModel.compute_heat_losses
  by_cases h : HeatLossModel.badParams area depth rh_d rh_n night_hours
  · rw [if_pos h]
    exact ⟨⟨fun _ => h, fun _ => rfl⟩, fun hn => absurd h hn⟩
  · rw [if_neg h]
    exact ⟨⟨fun he => absurd he (by simp), fun hb => absurd hb h⟩, fun _ => rfl⟩

/-- C3 witness: the spec scenario (28 °C target, 50 m², depth 1.5 m, valid
humidities and 12 night hours) is in domain and the call succeeds. -/
theorem compute_heat_losses_error_characterization_witness :
    ¬ HeatLossModel.badParams 50 (3/2) 60 66 12 ∧
    HeatLossModel.compute_heat_losses 28 50 (3/2) 25 18 2 (8/5) 60 66 12 true =
      Except.ok (HeatLossModel.computeHeatLossesCore 28 50 (3/2) 25 18 2 (8/5)
        60 66 12 true) :=
  ⟨by norm_num [HeatLossModel.badParams],
   (compute_heat_losses_error_characterization 28 50 (3/2) 25 18 2 (8/5) 60 66
      12 true).2 (by norm_num [HeatLossModel.badParams])⟩

/-- C4: on identical valid ambient inputs, the covered call succeeds with
night evaporative and radiative losses at most the uncovered ones, and when
the uncovered night evaporative loss is positive the covered one is a strictly
smaller positive residual, not zero. -/
theorem cover_reduces_night_losses
    (target_temp area depth T_day T_night wind_day wind_night rh_d rh_n
      night_hours : ℚ)
    (hvalid : ¬ HeatLossModel.badParams area depth rh_d rh_n night_hours)
    (hrad : 0 ≤ HeatLossModel.rad_loss area target_temp T_night)
    (hevap : 0 < HeatLossModel.evap_loss area wind_night target_temp T_night rh_n) :
    ∃ bc bu : HeatLossModel.LossBreakdown,
      HeatLossModel.compute_heat_losses target_temp area depth T_day T_night
          wind_day wind_night rh_d rh_n night_hours true = Except.ok bc ∧
      HeatLossModel.compute_heat_losses target_temp area depth T_day T_night
          wind_day wind_night rh_d rh_n night_hours false = Except.ok bu ∧
      bc.evap_night ≤ bu.evap_night ∧ bc.rad_night ≤ bu.rad_night ∧
      0 < bc.evap_night ∧ bc.evap_night < bu.evap_night := by
  refine ⟨HeatLossModel.computeHeatLossesCore target_temp area depth T_day T_night
      wind_day wind_night rh_d rh_n night_hours true,
    HeatLossModel.computeHeatLossesCore target_temp area depth T_day T_night
      wind_day wind_night rh_d rh_n night_hours false, ?_, ?_, ?_, ?_, ?_, ?_⟩
  · unfold HeatLossModel.compute_heat_losses
    rw [if_neg hvalid]
  · unfold HeatLossModel.compute_heat_losses
    rw [if_neg hvalid]
  · show HeatLossModel.cover_evap_residual *
        HeatLossModel.evap_loss area wind_night target_temp T_night rh_n ≤
      HeatLossModel.evap_loss area wind_night target_temp T_night rh_n
    unfold HeatLossModel.cover_evap_residual
    linarith
  · show HeatLossModel.cover_rad_factor *
        HeatLossModel.rad_loss area target_temp T_night ≤
      HeatLossModel.rad_loss area target_temp T_night
    unfold HeatLossModel.cover_rad_factor
    linarith
  · show 0 < HeatLossModel.cover_evap_residual *
        HeatLossModel.evap_loss area wind_night target_temp T_night rh_n
    unfold HeatLossModel.cover_evap_residual
    linarith
  · show HeatLossModel.cover_evap_residual *
        HeatLossModel.evap_loss area wind_night target_temp T_night rh_n <
      HeatLossModel.evap_loss area wind_night target_temp T_night rh_n
    unfold HeatLossModel.cover_evap_residual
    linarith

/-- C4 witness: the spec scenario with night temperature 18 °C against a 28 °C
pool has nonnegative night radiative loss and positive night evaporative loss,
so the covered run lies strictly between zero and the uncovered run there. -/
theorem cover_reduces_night_losses_witness :
    0 < HeatLossModel.evap_loss 50 (8/5) 28 18 66 ∧
    ∃ bc bu : HeatLossModel.LossBreakdown,
      HeatLossModel.compute_heat_losses 28 50 (3/2) 25 18 2 (8/5) 60 66 12
          true = Except.ok bc ∧
      HeatLossModel.compute_heat_losses 28 50 (3/2) 25 18 2 (8/5) 60 66 12
          false = Except.ok bu ∧
      bc.evap_night ≤ bu.evap_night ∧ bc.rad_night ≤ bu.rad_night ∧
      0 < bc.evap_night ∧ bc.evap_night < bu.evap_night :=
  ⟨by norm_num [HeatLossModel.evap_loss, HeatLossModel.p_sat],
   cover_reduces_night_losses 28 50 (3/2) 25 18 2 (8/5) 60 66 12
     (by norm_num [HeatLossModel.badParams])
     (by norm_num [HeatLossModel.rad_loss])
     (by norm_num [HeatLossModel.evap_loss, HeatLossModel.p_sat])⟩

end SunCollector
